import Mathlib

/-!
Verification development for the AIH attendance frontend
(src/static/main.js and src/unnamed/part_000) and its SQL schema.

The development shallowly embeds the relevant program fragments:

* the SHA-256 device fingerprint (part_000, getDeviceFingerprint, lines 23-40),
  including a full executable SHA-256 over byte lists (Nat with explicit
  reductions mod 2^32, modelling the SubtleCrypto digest) and the
  JSON.stringify serialization of the seven component properties;
* the geolocation helpers: the two-stage getAccurateLocation of
  src/static/main.js (lines 411-435), and part_000's getBrowserGpsLocation
  and getGoogleApiLocation, with the browser geolocation API's outcomes as
  explicit inputs;
* the student-page event handlers of part_000 (attendance submit, the
  retry-with-Google click handler, handleAttendanceSubmission,
  fetchPresentStudents polling, the enrollment-input debounce handler) as
  pure functions from the external outcomes to the list of DOM/network
  effects they perform, in program order;
* the attendance_records and session_device_fingerprints tables of the SQL
  schema, with inserts that enforce the declared UNIQUE constraints the way
  PostgreSQL does (an insert violating a constraint fails and leaves the
  table unchanged).
-/

namespace AIH

/-! ### SHA-256 over byte lists (models crypto.subtle.digest of part_000 line 37) -/

/-- Modulus for 32-bit words: 2^32. -/
def M32 : Nat := 4294967296

/-- Right rotation of a 32-bit word by n bits. -/
def rotr (n w : Nat) : Nat := (w / 2 ^ n + w % 2 ^ n * 2 ^ (32 - n)) % M32

/-- SHA-256 big sigma 0. -/
def bsig0 (x : Nat) : Nat := Nat.xor (rotr 2 x) (Nat.xor (rotr 13 x) (rotr 22 x))

/-- SHA-256 big sigma 1. -/
def bsig1 (x : Nat) : Nat := Nat.xor (rotr 6 x) (Nat.xor (rotr 11 x) (rotr 25 x))

/-- SHA-256 small sigma 0. -/
def ssig0 (x : Nat) : Nat := Nat.xor (rotr 7 x) (Nat.xor (rotr 18 x) (x / 2 ^ 3))

/-- SHA-256 small sigma 1. -/
def ssig1 (x : Nat) : Nat := Nat.xor (rotr 17 x) (Nat.xor (rotr 19 x) (x / 2 ^ 10))

/-- SHA-256 choice function. -/
def chF (x y z : Nat) : Nat := Nat.xor (Nat.land x y) (Nat.land (Nat.xor x 4294967295) z)

/-- SHA-256 majority function. -/
def majF (x y z : Nat) : Nat :=
  Nat.xor (Nat.land x y) (Nat.xor (Nat.land x z) (Nat.land y z))

/-- The 64 SHA-256 round constants (FIPS 180-4). -/
def K256 : List Nat :=
  [1116352408, 1899447441, 3049323471, 3921009573, 961987163,
   1508970993, 2453635748, 2870763221, 3624381080, 310598401,
   607225278, 1426881987, 1925078388, 2162078206, 2614888103,
   3248222580, 3835390401, 4022224774, 264347078, 604807628,
   770255983, 1249150122, 1555081692, 1996064986, 2554220882,
   2821834349, 2952996808, 3210313671, 3336571891, 3584528711,
   113926993, 338241895, 666307205, 773529912, 1294757372,
   1396182291, 1695183700, 1986661051, 2177026350, 2456956037,
   2730485921, 2820302411, 3259730800, 3345764771, 3516065817,
   3600352804, 4094571909, 275423344, 430227734, 506948616,
   659060556, 883997877, 958139571, 1322822218, 1537002063,
   1747873779, 1955562222, 2024104815, 2227730452, 2361852424,
   2428436474, 2756734187, 3204031479, 3329325298]

/-- The eight 32-bit hash words of a SHA-256 state. -/
structure Hash8 where
  h0 : Nat
  h1 : Nat
  h2 : Nat
  h3 : Nat
  h4 : Nat
  h5 : Nat
  h6 : Nat
  h7 : Nat
  deriving DecidableEq

/-- The SHA-256 initial hash value (FIPS 180-4). -/
def initH : Hash8 :=
  ⟨1779033703, 3144134277, 1013904242, 2773480762, 1359893119, 2600822924, 528734635, 1541459225⟩

/-- Extend the 16 block words to the 64-entry message schedule. -/
def schedule (block : List Nat) : List Nat :=
  (List.range 48).foldl
    (fun ws i =>
      ws ++ [(ssig1 (ws.getD (i + 14) 0) + ws.getD (i + 9) 0 + ssig0 (ws.getD (i + 1) 0)
              + ws.getD i 0) % M32])
    block

/-- One SHA-256 round on the eight working variables. -/
def roundStep (w : List Nat) (s : Nat × Nat × Nat × Nat × Nat × Nat × Nat × Nat) (t : Nat) :
    Nat × Nat × Nat × Nat × Nat × Nat × Nat × Nat :=
  match s with
  | (a, b, c, d, e, f, g, hh) =>
    let t1 := (hh + bsig1 e + chF e f g + K256.getD t 0 + w.getD t 0) % M32
    let t2 := (bsig0 a + majF a b c) % M32
    ((t1 + t2) % M32, a, b, c, (d + t1) % M32, e, f, g)

/-- SHA-256 compression of one 512-bit block into the running hash. -/
def compress (h : Hash8) (block : List Nat) : Hash8 :=
  let w := schedule block
  match (List.range 64).foldl (roundStep w) (h.h0, h.h1, h.h2, h.h3, h.h4, h.h5, h.h6, h.h7) with
  | (a, b, c, d, e, f, g, hh) =>
    ⟨(h.h0 + a) % M32, (h.h1 + b) % M32, (h.h2 + c) % M32, (h.h3 + d) % M32,
     (h.h4 + e) % M32, (h.h5 + f) % M32, (h.h6 + g) % M32, (h.h7 + hh) % M32⟩

/-- Read a 64-byte block as 16 big-endian 32-bit words. -/
def bytesToWords (bs : List Nat) : List Nat :=
  (List.range 16).map (fun i =>
    bs.getD (4 * i) 0 * 2 ^ 24 + bs.getD (4 * i + 1) 0 * 2 ^ 16
    + bs.getD (4 * i + 2) 0 * 2 ^ 8 + bs.getD (4 * i + 3) 0)

/-- The 8-byte big-endian encoding of the message bit length. -/
def lenBytes (n : Nat) : List Nat := (List.range 8).map (fun i => n / 2 ^ (8 * (7 - i)) % 256)

/-- SHA-256 padding: a 0x80 byte, zeros, then the 64-bit message bit length. -/
def padMessage (msg : List Nat) : List Nat :=
  msg ++ [0x80] ++ List.replicate ((64 - (msg.length + 9) % 64) % 64) 0 ++ lenBytes (8 * msg.length)

/-- Split a 32-bit word into its four big-endian bytes. -/
def toBytes4 (w : Nat) : List Nat := [w / 2 ^ 24 % 256, w / 2 ^ 16 % 256, w / 2 ^ 8 % 256, w % 256]

/-- The 32 digest bytes of a final SHA-256 state. -/
def hashOut (h : Hash8) : List Nat :=
  toBytes4 h.h0 ++ toBytes4 h.h1 ++ toBytes4 h.h2 ++ toBytes4 h.h3
    ++ toBytes4 h.h4 ++ toBytes4 h.h5 ++ toBytes4 h.h6 ++ toBytes4 h.h7

/-- SHA-256 of a byte list: pad, compress each 64-byte block, output 32 bytes. -/
def sha256Bytes (msg : List Nat) : List Nat :=
  let p := padMessage msg
  hashOut ((List.range (p.length / 64)).foldl
    (fun h i => compress h (bytesToWords ((p.drop (64 * i)).take 64))) initH)

/-- Lowercase hexadecimal digit for a value below 16 (models b.toString(16)). -/
def hexDigitChar (n : Nat) : Char := if n < 10 then Char.ofNat (48 + n) else Char.ofNat (87 + n)

/-- Two lowercase hex characters of one byte (models toString(16).padStart(2, 0)). -/
def byteToHex (b : Nat) : List Char := [hexDigitChar (b / 16), hexDigitChar (b % 16)]

/-- Hex string of a byte list (models the hashArray.map(..).join of line 39). -/
def bytesToHexStr (bs : List Nat) : String := String.mk ((bs.map byteToHex).flatten)

/-- UTF-8 bytes of one code point (models TextEncoder.encode, part_000 line 35). -/
def utf8Char (c : Nat) : List Nat :=
  if c < 128 then [c]
  else if c < 2048 then [192 + c / 64, 128 + c % 64]
  else if c < 65536 then [224 + c / 4096, 128 + c / 64 % 64, 128 + c % 64]
  else [240 + c / 262144, 128 + c / 4096 % 64, 128 + c / 64 % 64, 128 + c % 64]

/-- UTF-8 encoding of a string. -/
def encodeUtf8 (s : String) : List Nat := (s.data.map (fun c => utf8Char c.toNat)).flatten

/-- SHA-256 hex digest of a string, as part_000 lines 35-39 compute it. -/
def sha256Hex (s : String) : String := bytesToHexStr (sha256Bytes (encodeUtf8 s))

/-! ### Device fingerprint (part_000, getDeviceFingerprint, lines 23-40) -/

/-- The browser/environment properties read by getDeviceFingerprint:
navigator.userAgent, screen.width, screen.height, screen.colorDepth,
getTimezoneOffset(), navigator.language, navigator.platform. -/
structure DeviceEnv where
  userAgent : String
  screenWidth : Int
  screenHeight : Int
  colorDepth : Int
  timezone : Int
  language : String
  platform : String
  deriving DecidableEq

/-- JSON escape of one character, per JSON.stringify. -/
def jsonEscapeChar (c : Char) : List Char :=
  if c.toNat = 34 then [Char.ofNat 92, Char.ofNat 34]
  else if c.toNat = 92 then [Char.ofNat 92, Char.ofNat 92]
  else if c.toNat = 8 then [Char.ofNat 92, Char.ofNat 98]
  else if c.toNat = 9 then [Char.ofNat 92, Char.ofNat 116]
  else if c.toNat = 10 then [Char.ofNat 92, Char.ofNat 110]
  else if c.toNat = 12 then [Char.ofNat 92, Char.ofNat 102]
  else if c.toNat = 13 then [Char.ofNat 92, Char.ofNat 114]
  else if c.toNat < 32 then [Char.ofNat 92, Char.ofNat 117, Char.ofNat 48, Char.ofNat 48]
    ++ byteToHex c.toNat
  else [c]

/-- A JSON string literal for s, per JSON.stringify. -/
def jsonQuote (s : String) : String :=
  String.mk ([Char.ofNat 34] ++ (s.data.map jsonEscapeChar).flatten ++ [Char.ofNat 34])

/-- JSON.stringify of the components object of part_000 lines 24-32, with the
seven keys in the source's insertion order. -/
def componentsJson (e : DeviceEnv) : String :=
  "\x7b\"userAgent\":" ++ jsonQuote e.userAgent
    ++ ",\"screenWidth\":" ++ toString e.screenWidth
    ++ ",\"screenHeight\":" ++ toString e.screenHeight
    ++ ",\"colorDepth\":" ++ toString e.colorDepth
    ++ ",\"timezone\":" ++ toString e.timezone
    ++ ",\"language\":" ++ jsonQuote e.language
    ++ ",\"platform\":" ++ jsonQuote e.platform ++ "\x7d"

/-- getDeviceFingerprint of part_000 lines 23-40: SHA-256 hex digest of the
UTF-8 bytes of the serialized components. -/
def getDeviceFingerprint (e : DeviceEnv) : String := sha256Hex (componentsJson e)

/-! ### Geolocation -/

/-- A geolocation result's coordinates. Latitude and longitude are carried as
the decimal strings they are serialized to (the code never computes with
them); accuracy in meters is compared against the threshold, so it is kept
as a rational. -/
structure Coords where
  latitude : String
  longitude : String
  accuracy : Rat
  deriving DecidableEq

/-- Options passed to the browser geolocation API. -/
structure GeoOptions where
  enableHighAccuracy : Bool
  timeout : Nat
  maximumAge : Option Nat
  deriving DecidableEq

/-- First-stage options of getAccurateLocation (main.js line 433). -/
def lowAccuracyOptions : GeoOptions := ⟨false, 5000, none⟩

/-- Watch options of getAccurateLocation's high-accuracy stage (main.js line 428). -/
def highAccuracyWatchOptions : GeoOptions := ⟨true, 15000, some 0⟩

/-- Options of part_000's getBrowserGpsLocation (line 50). -/
def browserGpsOptions : GeoOptions := ⟨true, 8000, some 0⟩

/-- getAccurateLocation of main.js lines 411-435, as a function of the two
browser responses it may consume: the first-stage getCurrentPosition result
and the high-accuracy watchPosition result. -/
def getAccurateLocation (low : Except String Coords) (watch : Except String Coords) :
    Except String Coords :=
  match low with
  | .error m => .error ("Could not get location: " ++ m)
  | .ok pos =>
    if pos.accuracy < 150 then .ok pos
    else
      match watch with
      | .ok p => .ok p
      | .error m => .error ("Could not get an accurate location: " ++ m)

/-- Whether getAccurateLocation starts the high-accuracy watch for a given
first-stage response (the else branch of main.js line 417). -/
def escalatesToWatch (low : Except String Coords) : Bool :=
  match low with
  | .error _ => false
  | .ok pos => !(pos.accuracy < 150 : Bool)

/-- Error codes of the browser geolocation API. -/
inductive GeoFailCode where
  | permissionDenied
  | positionUnavailable
  | timedOut
  | otherFailure
  deriving DecidableEq

/-- The message composed by getBrowserGpsLocation's error switch
(part_000 lines 54-60). -/
def gpsErrorMessage : GeoFailCode → String
  | .permissionDenied => "GPS Error: Permission denied."
  | .positionUnavailable => "GPS Error: Position unavailable."
  | .timedOut => "GPS Error: Request timed out."
  | .otherFailure => "GPS Error: Unknown error."

/-- What the browser geolocation layer reports to part_000's
getBrowserGpsLocation. -/
inductive BrowserGeo where
  | unsupported
  | position (pos : Coords)
  | failure (code : GeoFailCode)
  deriving DecidableEq

/-- getBrowserGpsLocation of part_000 lines 45-66. -/
def getBrowserGpsLocation : BrowserGeo → Except String Coords
  | .unsupported => .error "Geolocation is not supported by your browser."
  | .position p => .ok p
  | .failure c => .error (gpsErrorMessage c)

/-- What the Google geolocation API layer reports to getGoogleApiLocation. -/
inductive GoogleGeo where
  | keyMissing
  | httpError (status : Nat)
  | body (loc : Option (String × String)) (accuracy : Option Rat)
  deriving DecidableEq

/-- getGoogleApiLocation of part_000 lines 68-81. -/
def getGoogleApiLocation : GoogleGeo → Except String Coords
  | .keyMissing => .error "Configuration error: Google Maps API key is not set."
  | .httpError s => .error ("Google API responded with status " ++ toString s)
  | .body loc acc =>
    match loc, acc with
    | some (la, ln), some a => .ok ⟨la, ln, a⟩
    | _, _ => .error "Could not determine location from Google's response."

/-! ### Student-page effects (part_000, initStudentPage) -/

/-- Hide delay of showStatusMessage's setTimeout (part_000 line 16). -/
def statusHideDelayMs : Nat := 6000

/-- Polling period of the present-student list (part_000 line 148). -/
def pollIntervalMs : Nat := 10000

/-- One observable action of the student-page handlers, in program order. -/
inductive Effect where
  | showStatus (msg ty : String) (hideAfterMs : Nat)
  | openWifiModal
  | closeWifiModal
  | setButtonDisabled (disabled : Bool)
  | setSpinnerVisible (visible : Bool)
  | setButtonLabel (label : String)
  | setTipsVisible (visible : Bool)
  | hideForm
  | fetchPresent (sessionId : Nat)
  | gpsRequest (opts : GeoOptions)
  | googleRequest
  | postAttendance (body : List (String × String))
  | consoleWarnLog (msg : String)
  | consoleErrorLog (msg : String)
  | updatePresentHtml (html : String)
  deriving DecidableEq

/-- resetSubmitButton of part_000 lines 167-171. -/
def resetSubmitButtonEffects : List Effect :=
  [.setButtonDisabled false, .setSpinnerVisible false, .setButtonLabel "Mark My Attendance"]

/-- The student page's ambient data: the device environment, the enrollment
input's current value and window.activeSessionDataStudent.id. -/
structure StudentPage where
  device : DeviceEnv
  enrollmentValue : String
  sessionId : Nat
  deriving DecidableEq

/-- The parsed /api/mark_attendance response consumed by
handleAttendanceSubmission: success, or the retry_high_accuracy category, or
any other failure. -/
inductive ServerResult where
  | ok (msg category : String)
  | retryHighAccuracy (msg : String)
  | fail (msg category : String)
  deriving DecidableEq

/-- JS String.prototype.includes restricted to a nonempty needle. -/
def jsIncludes (s sub : String) : Bool := (s.splitOn sub).length != 1

/-- The URLSearchParams body of part_000 lines 177-184: exactly the six
fields, in source order. -/
def attendanceFormBody (env : StudentPage) (pos : Coords) (method : String) :
    List (String × String) :=
  [("enrollment_no", env.enrollmentValue),
   ("session_id", toString env.sessionId),
   ("latitude", pos.latitude),
   ("longitude", pos.longitude),
   ("location_method", method),
   ("fingerprint", getDeviceFingerprint env.device)]

/-- handleAttendanceSubmission of part_000 lines 173-203, as the effect list
it performs for a given server response. -/
def handleAttendanceSubmission (env : StudentPage) (pos : Coords) (method : String)
    (srv : ServerResult) : List Effect :=
  .postAttendance (attendanceFormBody env pos method) ::
  match srv with
  | .ok msg cat => [.showStatus msg cat statusHideDelayMs, .hideForm, .fetchPresent env.sessionId]
  | .retryHighAccuracy msg => [.showStatus msg "info" statusHideDelayMs, .openWifiModal]
  | .fail msg cat =>
    [.showStatus msg cat statusHideDelayMs] ++ resetSubmitButtonEffects
      ++ (if jsIncludes msg "away" then [.setTipsVisible true] else [])

/-- The attendanceForm submit handler of part_000 lines 205-221: disable the
button, request browser GPS, then either submit or show the Wi-Fi modal.
The button is deliberately not reset in the failure branch (line 219). -/
def attendanceSubmitFlow (env : StudentPage) (geo : BrowserGeo) (srv : ServerResult) :
    List Effect :=
  [.setButtonDisabled true, .setSpinnerVisible true, .setButtonLabel "Getting GPS Location...",
   .setTipsVisible false]
  ++ (match geo with
      | .unsupported => []
      | _ => [.gpsRequest browserGpsOptions])
  ++ match getBrowserGpsLocation geo with
     | .ok pos => handleAttendanceSubmission env pos "gps" srv
     | .error m =>
       [.consoleWarnLog ("Initial GPS failed: " ++ m),
        .showStatus "GPS failed. Please enable Wi-Fi for a more precise check." "info"
          statusHideDelayMs,
        .openWifiModal]

/-- The retryWithGoogleBtn click handler of part_000 lines 223-234. -/
def retryWithGoogleFlow (env : StudentPage) (google : GoogleGeo) (srv : ServerResult) :
    List Effect :=
  [.closeWifiModal, .setButtonLabel "Getting Wi-Fi Location..."]
  ++ (match google with
      | .keyMissing => []
      | _ => [.googleRequest])
  ++ match getGoogleApiLocation google with
     | .ok pos => handleAttendanceSubmission env pos "google" srv
     | .error _ =>
       [.showStatus "Advanced location check failed. Please check your connection." "error"
          statusHideDelayMs,
        .setTipsVisible true] ++ resetSubmitButtonEffects

/-- The errorCallback of the older main.js submit handler (lines 186-192):
show the error, re-enable the button, restore its label, show tips. -/
def mainJsSubmitErrorEffects (errMsg : String) : List Effect :=
  [.showStatus errMsg "error" statusHideDelayMs, .setButtonDisabled false,
   .setSpinnerVisible false, .setButtonLabel "Mark My Attendance", .setTipsVisible true]

/-! ### Present-student polling (part_000 lines 130-149) -/

/-- Outcome of one /api/get_present_students fetch: a network failure, or a
parsed response with its success flag and optional students array. -/
inductive FetchPresentResult where
  | netError (msg : String)
  | response (success : Bool) (students : Option (List String))
  deriving DecidableEq

/-- The innerHTML rendered for the present list (part_000 lines 137-139). -/
def renderPresentHtml (students : List String) : String :=
  if students.length > 0 then String.join (students.map (fun n => "<li>" ++ n ++ "</li>"))
  else "<li>No one has marked attendance yet.</li>"

/-- fetchPresentStudents of part_000 lines 130-142, as the effect list of one
invocation: the fetch, then either a DOM update or a caught console error.
The catch swallows every failure, so the function is total and shows no
status message. -/
def fetchPresentEffects (sessionId : Nat) (r : FetchPresentResult) : List Effect :=
  .fetchPresent sessionId ::
  match r with
  | .netError m => [.consoleErrorLog ("Could not fetch present students: " ++ m)]
  | .response success students =>
    match success, students with
    | true, some l => [.updatePresentHtml (renderPresentHtml l)]
    | _, _ => []

/-- State of the polling loop started at part_000 lines 147-148: the list's
innerHTML, the times (ms after page load) at which fetches were issued, and
the console log. -/
structure PollState where
  presentHtml : String
  fetchLog : List Nat
  consoleLog : List String
  deriving DecidableEq

/-- Initial poll state. -/
def pollInit : PollState := ⟨"", [], []⟩

/-- The n-th timer tick: the fetch is issued unconditionally (setInterval is
never cleared, and fetchPresentStudents catches its own failures), then the
outcome updates the DOM or the console. -/
def pollStep (results : Nat → FetchPresentResult) (st : PollState) (n : Nat) : PollState :=
  match results n with
  | .netError m =>
    { st with fetchLog := st.fetchLog ++ [pollIntervalMs * n],
              consoleLog := st.consoleLog ++ ["Could not fetch present students: " ++ m] }
  | .response success students =>
    { st with fetchLog := st.fetchLog ++ [pollIntervalMs * n],
              presentHtml :=
                match success, students with
                | true, some l => renderPresentHtml l
                | _, _ => st.presentHtml }

/-- The polling loop after n ticks (tick 0 is the immediate fetch of
part_000 line 147, tick k the k-th interval firing of line 148). -/
def pollRun (results : Nat → FetchPresentResult) (n : Nat) : PollState :=
  (List.range n).foldl (pollStep results) pollInit

/-! ### Enrollment-number lookup (part_000 lines 151-165) -/

/-- One observable action of the debounced enrollment-input handler. -/
inductive LookupEffect where
  | setDisplayText (text : String)
  | setDisplayColor (color : String)
  | nameRequest (enrollmentNo : String)
  deriving DecidableEq

/-- The display text for a /api/get_student_name response (line 160). -/
def lookupResponseText : Option String → String
  | some n => "Name: " ++ n
  | none => "Student not found."

/-- The display color for a /api/get_student_name response (line 161). -/
def lookupResponseColor : Option String → String
  | some _ => "var(--primary-blue)"
  | none => "var(--danger-red)"

/-- Whether a character is stripped by JS String.prototype.trim (ECMA-262
WhiteSpace or LineTerminator). -/
def isJsWhitespace (c : Char) : Bool :=
  c.toNat = 9 || c.toNat = 10 || c.toNat = 11 || c.toNat = 12 || c.toNat = 13
    || c.toNat = 32 || c.toNat = 160 || c.toNat = 5760
    || (8192 ≤ c.toNat && c.toNat ≤ 8202) || c.toNat = 8232 || c.toNat = 8233
    || c.toNat = 8239 || c.toNat = 8287 || c.toNat = 12288 || c.toNat = 65279

/-- JS String.prototype.trim: strip leading and trailing whitespace. -/
def jsTrim (s : String) : String :=
  String.mk (((s.data.dropWhile isJsWhitespace).reverse.dropWhile isJsWhitespace).reverse)

/-- The debounced input handler of part_000 lines 151-165: trim the value;
look the name up only when the trimmed length is at least 5, otherwise clear
the display. -/
def enrollmentInputFlow (value : String) (resp : Option String) : List LookupEffect :=
  let enrollmentNo := jsTrim value
  if enrollmentNo.length >= 5 then
    [.setDisplayText "Searching...", .setDisplayColor "var(--text-muted)",
     .nameRequest enrollmentNo,
     .setDisplayText (lookupResponseText resp), .setDisplayColor (lookupResponseColor resp)]
  else
    [.setDisplayText ""]

/-! ### The SQL stores (schema document inside src/static/main.js, lines 789-808) -/

/-- A row of attendance_records (lines 789-798). -/
structure AttendanceRecord where
  session_id : Nat
  student_id : Nat
  timestampMs : Nat
  latitude : Rat
  longitude : Rat
  ip_address : String
  deriving DecidableEq

/-- The key predicate of the UNIQUE (session_id, student_id) constraint. -/
def attendanceKeyP (sid st : Nat) (x : AttendanceRecord) : Bool :=
  x.session_id == sid && x.student_id == st

/-- Whether x collides with r on the UNIQUE (session_id, student_id) key. -/
def attendanceDupP (r x : AttendanceRecord) : Bool :=
  x.session_id == r.session_id && x.student_id == r.student_id

/-- INSERT into attendance_records under PostgreSQL UNIQUE enforcement: a row
whose (session_id, student_id) already exists is rejected with an error. -/
def insertAttendanceRecord (tbl : List AttendanceRecord) (r : AttendanceRecord) :
    Except String (List AttendanceRecord) :=
  if tbl.any (attendanceDupP r) then
    .error "duplicate key value violates unique constraint"
  else .ok (tbl ++ [r])

/-- The table after an insert attempt: unchanged when the insert fails. -/
def applyAttendanceInsert (tbl : List AttendanceRecord) (r : AttendanceRecord) :
    List AttendanceRecord :=
  match insertAttendanceRecord tbl r with
  | .ok t => t
  | .error _ => tbl

/-- The attendance_records table reached from empty by a sequence of insert
attempts. -/
def runAttendanceInserts (ops : List AttendanceRecord) : List AttendanceRecord :=
  ops.foldl applyAttendanceInsert []

/-- A row of session_device_fingerprints (lines 801-808). -/
structure FingerprintRow where
  session_id : Nat
  student_id : Nat
  fingerprint : String
  deriving DecidableEq

/-- The key predicate of UNIQUE (session_id, student_id) on the fingerprint
table. -/
def fpStudentKeyP (sid st : Nat) (x : FingerprintRow) : Bool :=
  x.session_id == sid && x.student_id == st

/-- The key predicate of UNIQUE (session_id, fingerprint). -/
def fpPrintKeyP (sid : Nat) (fp : String) (x : FingerprintRow) : Bool :=
  x.session_id == sid && x.fingerprint == fp

/-- Whether x collides with r on (session_id, student_id). -/
def fpStudentDupP (r x : FingerprintRow) : Bool :=
  x.session_id == r.session_id && x.student_id == r.student_id

/-- Whether x collides with r on (session_id, fingerprint). -/
def fpPrintDupP (r x : FingerprintRow) : Bool :=
  x.session_id == r.session_id && x.fingerprint == r.fingerprint

/-- INSERT into session_device_fingerprints: rejected when either UNIQUE
constraint of lines 806-807 is violated. -/
def insertFingerprintRow (tbl : List FingerprintRow) (r : FingerprintRow) :
    Except String (List FingerprintRow) :=
  if tbl.any (fpStudentDupP r) || tbl.any (fpPrintDupP r) then
    .error "duplicate key value violates unique constraint"
  else .ok (tbl ++ [r])

/-- The table after an insert attempt: unchanged when the insert fails. -/
def applyFingerprintInsert (tbl : List FingerprintRow) (r : FingerprintRow) :
    List FingerprintRow :=
  match insertFingerprintRow tbl r with
  | .ok t => t
  | .error _ => tbl

/-- The session_device_fingerprints table reached from empty by a sequence of
insert attempts. -/
def runFingerprintInserts (ops : List FingerprintRow) : List FingerprintRow :=
  ops.foldl applyFingerprintInsert []

/-! ### Predicates used by the theorems -/

/-- Whether an effect is an on-screen status message. -/
def isShowStatus : Effect → Bool
  | .showStatus _ _ _ => true
  | _ => false

/-- Whether an effect is a location request (browser GPS or Google API). -/
def isLocationRequest : Effect → Bool
  | .gpsRequest _ => true
  | .googleRequest => true
  | _ => false

/-- Every status message carries the fixed 6-second hide delay. -/
def statusDelayOk : Effect → Bool
  | .showStatus _ _ d => d == statusHideDelayMs
  | _ => true

/-- Whether an effect is a caught console error. -/
def isConsoleError : Effect → Bool
  | .consoleErrorLog _ => true
  | _ => false

/-- Whether an effect list re-enables the submit button. -/
def reEnablesButton (es : List Effect) : Bool :=
  es.any (fun e => e == .setButtonDisabled false)

/-- Whether a lookup effect is a /api/get_student_name request. -/
def isNameRequest : LookupEffect → Bool
  | .nameRequest _ => true
  | _ => false

/-- Whether a character is a lowercase hexadecimal digit. -/
def isLowerHexDigit (c : Char) : Bool :=
  (48 ≤ c.toNat && c.toNat ≤ 57) || (97 ≤ c.toNat && c.toNat ≤ 102)

/-- A sample device environment for concrete witnesses. -/
def sampleDevice : DeviceEnv := ⟨"Mozilla/5.0", 360, 800, 24, -330, "en-IN", "Linux armv8l"⟩

/-- A sample student page for concrete witnesses. -/
def samplePage : StudentPage := ⟨sampleDevice, "Y24120001", 7⟩


/-! ### Helper lemmas -/

lemma guarded_append_countP {α : Type} (tbl : List α) (r : α) (keyP dupP : α → Bool)
    (hany : tbl.any dupP = false)
    (hkey : keyP r = true → ∀ x, keyP x = dupP x)
    (h : tbl.countP keyP ≤ 1) :
    (tbl ++ [r]).countP keyP ≤ 1 := by
  rw [List.countP_append]
  by_cases hp : keyP r = true
  · have hzero : tbl.countP keyP = 0 := by
      rw [List.countP_eq_zero]
      intro a ha
      rw [List.any_eq_false] at hany
      have hda := hany a ha
      rw [hkey hp a]
      simpa using hda
    have hone : List.countP keyP [r] ≤ 1 := by
      simp [List.countP_cons, hp]
    omega
  · have : List.countP keyP [r] = 0 := by
      simp [List.countP_cons, hp]
    omega

lemma applyAttendanceInsert_eq (tbl : List AttendanceRecord) (r : AttendanceRecord) :
    applyAttendanceInsert tbl r =
      if tbl.any (attendanceDupP r) then tbl else tbl ++ [r] := by
  by_cases h : tbl.any (attendanceDupP r) <;>
    simp [applyAttendanceInsert, insertAttendanceRecord, h]

lemma attendance_step (tbl : List AttendanceRecord) (r : AttendanceRecord) (sid st : Nat)
    (h : tbl.countP (attendanceKeyP sid st) ≤ 1) :
    (applyAttendanceInsert tbl r).countP (attendanceKeyP sid st) ≤ 1 := by
  rw [applyAttendanceInsert_eq]
  by_cases hd : tbl.any (attendanceDupP r) = true
  · simpa [hd] using h
  · have hd' : tbl.any (attendanceDupP r) = false := by simpa using hd
    rw [if_neg (by simp [hd'])]
    refine guarded_append_countP tbl r _ _ hd' ?_ h
    intro hp x
    have hsid : r.session_id = sid := by
      have := (Bool.and_eq_true _ _).mp hp
      exact beq_iff_eq.mp this.1
    have hst : r.student_id = st := by
      have := (Bool.and_eq_true _ _).mp hp
      exact beq_iff_eq.mp this.2
    simp [attendanceKeyP, attendanceDupP, hsid, hst]

lemma runAttendance_aux (ops : List AttendanceRecord) :
    ∀ tbl : List AttendanceRecord,
      (∀ sid st, tbl.countP (attendanceKeyP sid st) ≤ 1) →
      ∀ sid st, (ops.foldl applyAttendanceInsert tbl).countP (attendanceKeyP sid st) ≤ 1 := by
  induction ops with
  | nil => intro tbl h sid st; exact h sid st
  | cons r rest ih =>
    intro tbl h sid st
    exact ih (applyAttendanceInsert tbl r)
      (fun sid st => attendance_step tbl r sid st (h sid st)) sid st

lemma applyFingerprintInsert_eq (tbl : List FingerprintRow) (r : FingerprintRow) :
    applyFingerprintInsert tbl r =
      if tbl.any (fpStudentDupP r) || tbl.any (fpPrintDupP r) then tbl else tbl ++ [r] := by
  by_cases h : tbl.any (fpStudentDupP r) || tbl.any (fpPrintDupP r) <;>
    simp [applyFingerprintInsert, insertFingerprintRow, h]

lemma fp_step_student (tbl : List FingerprintRow) (r : FingerprintRow) (sid st : Nat)
    (h : tbl.countP (fpStudentKeyP sid st) ≤ 1) :
    (applyFingerprintInsert tbl r).countP (fpStudentKeyP sid st) ≤ 1 := by
  rw [applyFingerprintInsert_eq]
  by_cases hd : (tbl.any (fpStudentDupP r) || tbl.any (fpPrintDupP r)) = true
  · simpa [hd] using h
  · have hd0 : (tbl.any (fpStudentDupP r) || tbl.any (fpPrintDupP r)) = false :=
      Bool.eq_false_iff.mpr hd
    have hd2 : tbl.any (fpStudentDupP r) = false := (Bool.or_eq_false_iff.mp hd0).1
    rw [if_neg hd]
    refine guarded_append_countP tbl r _ _ hd2 ?_ h
    intro hp x
    have hsid : r.session_id = sid := by
      have := (Bool.and_eq_true _ _).mp hp
      exact beq_iff_eq.mp this.1
    have hst : r.student_id = st := by
      have := (Bool.and_eq_true _ _).mp hp
      exact beq_iff_eq.mp this.2
    simp [fpStudentKeyP, fpStudentDupP, hsid, hst]

lemma fp_step_print (tbl : List FingerprintRow) (r : FingerprintRow) (sid : Nat) (fp : String)
    (h : tbl.countP (fpPrintKeyP sid fp) ≤ 1) :
    (applyFingerprintInsert tbl r).countP (fpPrintKeyP sid fp) ≤ 1 := by
  rw [applyFingerprintInsert_eq]
  by_cases hd : (tbl.any (fpStudentDupP r) || tbl.any (fpPrintDupP r)) = true
  · simpa [hd] using h
  · have hd0 : (tbl.any (fpStudentDupP r) || tbl.any (fpPrintDupP r)) = false :=
      Bool.eq_false_iff.mpr hd
    have hd2 : tbl.any (fpPrintDupP r) = false := (Bool.or_eq_false_iff.mp hd0).2
    rw [if_neg hd]
    refine guarded_append_countP tbl r _ _ hd2 ?_ h
    intro hp x
    have hsid : r.session_id = sid := by
      have := (Bool.and_eq_true _ _).mp hp
      exact beq_iff_eq.mp this.1
    have hfp : r.fingerprint = fp := by
      have := (Bool.and_eq_true _ _).mp hp
      exact beq_iff_eq.mp this.2
    simp [fpPrintKeyP, fpPrintDupP, hsid, hfp]

lemma runFp_aux (ops : List FingerprintRow) :
    ∀ tbl : List FingerprintRow,
      (∀ sid st, tbl.countP (fpStudentKeyP sid st) ≤ 1) →
      (∀ sid fp, tbl.countP (fpPrintKeyP sid fp) ≤ 1) →
      (∀ sid st, (ops.foldl applyFingerprintInsert tbl).countP (fpStudentKeyP sid st) ≤ 1)
      ∧ (∀ sid fp, (ops.foldl applyFingerprintInsert tbl).countP (fpPrintKeyP sid fp) ≤ 1) := by
  induction ops with
  | nil => intro tbl h1 h2; exact ⟨h1, h2⟩
  | cons r rest ih =>
    intro tbl h1 h2
    exact ih (applyFingerprintInsert tbl r)
      (fun sid st => fp_step_student tbl r sid st (h1 sid st))
      (fun sid fp => fp_step_print tbl r sid fp (h2 sid fp))

/-- C3: in every attendance_records table reachable by inserts from empty under
the UNIQUE (session_id, student_id) constraint, each (session, student) pair has
at most one record, so marking attendance a second time for the same student in
the same session cannot create a second record. -/
theorem c3_attendance_unique_per_session_student :
    ∀ (ops : List AttendanceRecord) (sid st : Nat),
      (runAttendanceInserts ops).countP (attendanceKeyP sid st) ≤ 1 := by
  intro ops sid st
  exact runAttendance_aux ops [] (by simp) sid st

/-- C4: in every session_device_fingerprints table reachable by inserts from
empty, there is at most one row per (session, student) and at most one row per
(session, fingerprint), so within one session a fingerprint already recorded
for one student cannot be recorded for a second student. -/
theorem c4_fingerprint_unique_keys :
    ∀ (ops : List FingerprintRow) (sid st : Nat) (fp : String),
      (runFingerprintInserts ops).countP (fpStudentKeyP sid st) ≤ 1
      ∧ (runFingerprintInserts ops).countP (fpPrintKeyP sid fp) ≤ 1 := by
  intro ops sid st fp
  have h := runFp_aux ops [] (by simp) (by simp)
  exact ⟨h.1 sid st, h.2 sid fp⟩

lemma pollStep_fetchLog (results : Nat → FetchPresentResult) (st : PollState) (n : Nat) :
    (pollStep results st n).fetchLog = st.fetchLog ++ [pollIntervalMs * n] := by
  cases h : results n <;> simp [pollStep, h]

lemma pollRun_aux (results : Nat → FetchPresentResult) :
    ∀ (n : Nat) (st : PollState),
      ((List.range n).foldl (pollStep results) st).fetchLog
        = st.fetchLog ++ (List.range n).map (fun i => pollIntervalMs * i) := by
  intro n
  induction n with
  | zero => intro st; simp
  | succ k ih =>
    intro st
    rw [List.range_succ, List.foldl_append]
    simp only [List.foldl_cons, List.foldl_nil]
    rw [pollStep_fetchLog, ih, List.map_append]
    simp

/-- C8: while an active session is shown, the present-student list is fetched
immediately (tick 0 at time 0) and then at a fixed 10-second interval: after n
ticks the fetch times are exactly 0, 10000, ..., 10000*(n-1) ms, for every
sequence of fetch outcomes, so a fetch failure never stops the polling. -/
theorem c8_poll_schedule :
    ∀ (results : Nat → FetchPresentResult) (n : Nat),
      (pollRun results n).fetchLog = (List.range n).map (fun i => pollIntervalMs * i) := by
  intro results n
  have h := pollRun_aux results n pollInit
  simpa [pollRun, pollInit] using h

/-- C9: the enrollment-number name lookup is issued only when the trimmed input
has length at least 5; for every shorter input the name display is cleared and
no lookup request is made. -/
theorem c9_lookup_threshold :
    ∀ (value : String) (resp : Option String),
      ((jsTrim value).length < 5 →
        (enrollmentInputFlow value resp).countP isNameRequest = 0
        ∧ enrollmentInputFlow value resp = [.setDisplayText ""])
      ∧ (5 ≤ (jsTrim value).length →
        (enrollmentInputFlow value resp).any (· == LookupEffect.nameRequest (jsTrim value)) = true) := by
  intro value resp
  constructor
  · intro h
    have hlt : ¬ ((jsTrim value).length ≥ 5) := by omega
    constructor <;> simp [enrollmentInputFlow, hlt, isNameRequest]
  · intro h
    simp [enrollmentInputFlow, h]

theorem c9_lookup_threshold_witness :
    (enrollmentInputFlow " 123 " none).countP isNameRequest = 0
    ∧ enrollmentInputFlow " 123 " none = [.setDisplayText ""] :=
  (c9_lookup_threshold " 123 " none).1 (by decide)

/-- C7: a successful location resolution is submitted as one form post to
/api/mark_attendance whose body holds exactly the enrollment number, session
id, latitude, longitude, location method and device fingerprint; on a
successful server response the form is hidden and the present list refreshed,
and on a non-retry failure the submit button is reset. -/
theorem c7_mark_attendance_post :
    ∀ (env : StudentPage) (pos : Coords) (method msg cat : String) (srv : ServerResult),
      ((handleAttendanceSubmission env pos method srv).head? = some (.postAttendance
        [("enrollment_no", env.enrollmentValue),
         ("session_id", toString env.sessionId),
         ("latitude", pos.latitude),
         ("longitude", pos.longitude),
         ("location_method", method),
         ("fingerprint", getDeviceFingerprint env.device)]))
      ∧ ((handleAttendanceSubmission env pos method (.ok msg cat)).any
          (· == Effect.hideForm) = true)
      ∧ ((handleAttendanceSubmission env pos method (.ok msg cat)).any
          (· == Effect.fetchPresent env.sessionId) = true)
      ∧ (reEnablesButton (handleAttendanceSubmission env pos method (.fail msg cat)) = true) := by
  intro env pos method msg cat srv
  refine ⟨rfl, ?_, ?_, ?_⟩
  · simp [handleAttendanceSubmission]
  · simp [handleAttendanceSubmission]
  · simp [handleAttendanceSubmission, reEnablesButton, resetSubmitButtonEffects]

/-- C6 counterexample: in the part_000 submit handler, a permission-denied
geolocation failure leaves the submit button disabled (no re-enable effect is
emitted) and opens the Wi-Fi modal instead, contradicting the claim that the
program re-enables the button on denial. -/
theorem c6_denied_geo_cx :
    reEnablesButton
      (attendanceSubmitFlow samplePage (.failure .permissionDenied) (.ok "" "")) = false
    ∧ (attendanceSubmitFlow samplePage (.failure .permissionDenied) (.ok "" "")).any
        (· == Effect.openWifiModal) = true := by
  constructor <;> rfl

/-- C6 amended: when browser geolocation fails during submission, the part_000
handler shows a status message and opens the Wi-Fi fallback modal, leaving the
button disabled; the button is re-enabled with its original label by
resetSubmitButton when the Google fallback fails or on a non-retry server
failure. The older main.js errorCallback does show an error and re-enable the
button directly. -/
theorem c6_denied_geo_reset :
    ∀ (env : StudentPage) (code : GeoFailCode) (srv : ServerResult) (m msg cat : String)
      (g : GoogleGeo) (pos : Coords),
      ((attendanceSubmitFlow env (.failure code) srv).any isShowStatus = true)
      ∧ ((attendanceSubmitFlow env (.failure code) srv).any (· == Effect.openWifiModal) = true)
      ∧ (reEnablesButton (attendanceSubmitFlow env (.failure code) srv) = false)
      ∧ (getGoogleApiLocation g = .error m →
          reEnablesButton (retryWithGoogleFlow env g srv) = true
          ∧ (retryWithGoogleFlow env g srv).any
              (· == Effect.setButtonLabel "Mark My Attendance") = true)
      ∧ (reEnablesButton (handleAttendanceSubmission env pos "gps" (.fail msg cat)) = true)
      ∧ (reEnablesButton (mainJsSubmitErrorEffects m) = true
          ∧ (mainJsSubmitErrorEffects m).any isShowStatus = true) := by
  intro env code srv m msg cat g pos
  refine ⟨?_, ?_, ?_, ?_, ?_, ?_, ?_⟩
  · simp [attendanceSubmitFlow, getBrowserGpsLocation, isShowStatus]
  · simp [attendanceSubmitFlow, getBrowserGpsLocation]
  · simp [attendanceSubmitFlow, getBrowserGpsLocation, reEnablesButton]
  · intro hg
    rcases g with _ | s | ⟨loc, acc⟩
    · constructor <;>
        simp [retryWithGoogleFlow, getGoogleApiLocation, reEnablesButton,
          resetSubmitButtonEffects]
    · constructor <;>
        simp [retryWithGoogleFlow, getGoogleApiLocation, reEnablesButton,
          resetSubmitButtonEffects]
    · rcases loc with _ | ⟨la, ln⟩ <;> rcases acc with _ | a
      · constructor <;>
          simp [retryWithGoogleFlow, getGoogleApiLocation, reEnablesButton,
            resetSubmitButtonEffects]
      · constructor <;>
          simp [retryWithGoogleFlow, getGoogleApiLocation, reEnablesButton,
            resetSubmitButtonEffects]
      · constructor <;>
          simp [retryWithGoogleFlow, getGoogleApiLocation, reEnablesButton,
            resetSubmitButtonEffects]
      · exact absurd hg (by simp [getGoogleApiLocation])
  · simp [handleAttendanceSubmission, reEnablesButton, resetSubmitButtonEffects]
  · simp [mainJsSubmitErrorEffects, reEnablesButton]
  · simp [mainJsSubmitErrorEffects, isShowStatus]

theorem c6_denied_geo_reset_witness :
    reEnablesButton (retryWithGoogleFlow samplePage .keyMissing (.ok "" "")) = true
    ∧ (retryWithGoogleFlow samplePage .keyMissing (.ok "" "")).any
        (· == Effect.setButtonLabel "Mark My Attendance") = true :=
  (c6_denied_geo_reset samplePage .permissionDenied (.ok "" "")
    "Configuration error: Google Maps API key is not set." "x" "y" .keyMissing
    ⟨"1", "2", 5⟩).2.2.2.1 rfl

/-- C5 counterexample: a network failure of the present-student list fetch is
caught and logged to the console only; it surfaces no on-screen status
message, contradicting the claim that every failure does. -/
theorem c5_failure_surfacing_cx :
    (fetchPresentEffects 7 (.netError "Failed to fetch")).any isShowStatus = false
    ∧ (fetchPresentEffects 7 (.netError "Failed to fetch")).any isConsoleError = true := by
  constructor <;> rfl

/-- C5 amended: every failure of the location and submission flows (geolocation
denial or unsupported browser, Google API error, server failure or retry
response) surfaces as a status message with the fixed 6-second auto-hide
delay, and no flow issues more than one location request (no automatic retry
beyond the single fallback); the present-list fetch failure, however, is
logged to the console only. -/
theorem c5_failure_surfacing :
    ∀ (env : StudentPage) (geo : BrowserGeo) (google : GoogleGeo) (srv : ServerResult)
      (code : GeoFailCode) (pos : Coords) (method msg cat m : String) (sid : Nat),
      ((attendanceSubmitFlow env geo srv).all statusDelayOk = true)
      ∧ ((retryWithGoogleFlow env google srv).all statusDelayOk = true)
      ∧ ((attendanceSubmitFlow env (.failure code) srv).any isShowStatus = true)
      ∧ ((attendanceSubmitFlow env .unsupported srv).any isShowStatus = true)
      ∧ (getGoogleApiLocation google = .error m →
          (retryWithGoogleFlow env google srv).any isShowStatus = true)
      ∧ ((handleAttendanceSubmission env pos method (.retryHighAccuracy msg)).any
          isShowStatus = true)
      ∧ ((handleAttendanceSubmission env pos method (.fail msg cat)).any isShowStatus = true)
      ∧ ((attendanceSubmitFlow env geo srv).countP isLocationRequest ≤ 1)
      ∧ ((retryWithGoogleFlow env google srv).countP isLocationRequest ≤ 1)
      ∧ ((fetchPresentEffects sid (.netError m)).any isShowStatus = false
          ∧ (fetchPresentEffects sid (.netError m)).any isConsoleError = true) := by
  intro env geo google srv code pos method msg cat m sid
  refine ⟨?_, ?_, ?_, ?_, ?_, ?_, ?_, ?_, ?_, ?_, ?_⟩
  · rcases geo with _ | p | c <;> rcases srv with ⟨m2, c2⟩ | m2 | ⟨m2, c2⟩ <;>
      simp [attendanceSubmitFlow, getBrowserGpsLocation, handleAttendanceSubmission,
        statusDelayOk, resetSubmitButtonEffects]
  · rcases google with _ | s | ⟨loc, acc⟩ <;>
      try rcases loc with _ | ⟨la, ln⟩ <;> rcases acc with _ | a
    all_goals
      rcases srv with ⟨m2, c2⟩ | m2 | ⟨m2, c2⟩ <;>
        simp [retryWithGoogleFlow, getGoogleApiLocation, handleAttendanceSubmission,
          statusDelayOk, resetSubmitButtonEffects]
  · simp [attendanceSubmitFlow, getBrowserGpsLocation, isShowStatus]
  · simp [attendanceSubmitFlow, getBrowserGpsLocation, isShowStatus]
  · intro hg
    rcases google with _ | s | ⟨loc, acc⟩
    · simp [retryWithGoogleFlow, getGoogleApiLocation, isShowStatus]
    · simp [retryWithGoogleFlow, getGoogleApiLocation, isShowStatus]
    · rcases loc with _ | ⟨la, ln⟩ <;> rcases acc with _ | a
      · simp [retryWithGoogleFlow, getGoogleApiLocation, isShowStatus]
      · simp [retryWithGoogleFlow, getGoogleApiLocation, isShowStatus]
      · simp [retryWithGoogleFlow, getGoogleApiLocation, isShowStatus]
      · exact absurd hg (by simp [getGoogleApiLocation])
  · simp [handleAttendanceSubmission, isShowStatus]
  · simp [handleAttendanceSubmission, isShowStatus]
  · rcases geo with _ | p | c <;> rcases srv with ⟨m2, c2⟩ | m2 | ⟨m2, c2⟩ <;>
      simp [attendanceSubmitFlow, getBrowserGpsLocation, handleAttendanceSubmission,
        isLocationRequest, resetSubmitButtonEffects, List.countP_append, List.countP_cons]
  · rcases google with _ | s | ⟨loc, acc⟩ <;>
      try rcases loc with _ | ⟨la, ln⟩ <;> rcases acc with _ | a
    all_goals
      rcases srv with ⟨m2, c2⟩ | m2 | ⟨m2, c2⟩ <;>
        simp [retryWithGoogleFlow, getGoogleApiLocation, handleAttendanceSubmission,
          isLocationRequest, resetSubmitButtonEffects, List.countP_append, List.countP_cons]
  · rfl
  · rfl

theorem c5_failure_surfacing_witness :
    (retryWithGoogleFlow samplePage .keyMissing (.retryHighAccuracy "r")).any
      isShowStatus = true :=
  (c5_failure_surfacing samplePage .unsupported .keyMissing (.retryHighAccuracy "r")
    .permissionDenied ⟨"1", "2", 5⟩ "gps" "m" "c"
    "Configuration error: Google Maps API key is not set." 7).2.2.2.2.1 rfl

/-- C1 counterexample: with reported accuracy exactly 150 m the code escalates
to the high-accuracy watch although 150 does not exceed the 150 m threshold,
so escalation is not limited to accuracies strictly above the threshold. -/
theorem c1_threshold_boundary_cx :
    escalatesToWatch (.ok ⟨"23.8244", "78.7706", (150 : Rat)⟩) = true
    ∧ ¬ ((150 : Rat) > 150) := by
  constructor
  · simp [escalatesToWatch]
  · norm_num

/-- C1 amended: getAccurateLocation first requests the browser position with
low accuracy (enableHighAccuracy false, 5 s timeout) and escalates to the
high-accuracy watch (enableHighAccuracy true, 15 s timeout) exactly when the
reported accuracy is at least (rather than strictly above) the 150 m
threshold; below the threshold the first-stage position is returned as is. -/
theorem c1_two_stage_location :
    ∀ (pos p : Coords) (m : String),
      lowAccuracyOptions = ⟨false, 5000, none⟩
      ∧ highAccuracyWatchOptions = ⟨true, 15000, some 0⟩
      ∧ (escalatesToWatch (.ok pos) = true ↔ 150 ≤ pos.accuracy)
      ∧ escalatesToWatch (.error m) = false
      ∧ (pos.accuracy < 150 → getAccurateLocation (.ok pos) (.ok p) = .ok pos)
      ∧ (150 ≤ pos.accuracy → getAccurateLocation (.ok pos) (.ok p) = .ok p)
      ∧ (150 ≤ pos.accuracy →
          getAccurateLocation (.ok pos) (.error m)
            = .error ("Could not get an accurate location: " ++ m))
      ∧ getAccurateLocation (.error m) (.ok p) = .error ("Could not get location: " ++ m) := by
  intro pos p m
  refine ⟨rfl, rfl, ?_, rfl, ?_, ?_, ?_, rfl⟩
  · simp [escalatesToWatch, not_lt]
  · intro h; simp [getAccurateLocation, h]
  · intro h; simp [getAccurateLocation, not_lt.mpr h]
  · intro h; simp [getAccurateLocation, not_lt.mpr h]

theorem c1_two_stage_location_witness :
    getAccurateLocation (.ok ⟨"1", "2", (200 : Rat)⟩) (.ok ⟨"3", "4", (20 : Rat)⟩)
      = .ok ⟨"3", "4", (20 : Rat)⟩ :=
  (c1_two_stage_location ⟨"1", "2", 200⟩ ⟨"3", "4", 20⟩ "m").2.2.2.2.2.1 (by norm_num)

/-- C2: the device fingerprint is the SHA-256 hex digest of the UTF-8 bytes of
the JSON serialization of the seven browser/environment properties (the
sha256Hex conjuncts pin the hash to SHA-256 via FIPS 180-4 test vectors), and
the submitted form body carries it under the fingerprint key as the
duplicate-device key. -/
theorem c2_fingerprint_hash :
    ∀ (e : DeviceEnv) (env : StudentPage) (pos : Coords) (method : String),
      getDeviceFingerprint e = bytesToHexStr (sha256Bytes (encodeUtf8 (componentsJson e)))
      ∧ sha256Hex "abc" = "ba7816bf8f01cfea414140de5dae2223b00361a396177a9cb410ff61f20015ad"
      ∧ sha256Hex "" = "e3b0c44298fc1c149afbf4c8996fb92427ae41e4649b934ca495991b7852b855"
      ∧ (attendanceFormBody env pos method).lookup "fingerprint"
          = some (getDeviceFingerprint env.device) := by
  intro e env pos method
  exact ⟨rfl, by set_option maxRecDepth 400000 in decide,
    by set_option maxRecDepth 400000 in decide, rfl⟩


lemma hexDigitChar_lower {n : Nat} (h : n < 16) : isLowerHexDigit (hexDigitChar n) = true := by
  interval_cases n <;> decide

lemma byteToHex_lower {b : Nat} (hb : b < 256) :
    ∀ c ∈ byteToHex b, isLowerHexDigit c = true := by
  intro c hc
  simp [byteToHex] at hc
  rcases hc with rfl | rfl
  · exact hexDigitChar_lower (by omega)
  · exact hexDigitChar_lower (Nat.mod_lt _ (by norm_num))

lemma toBytes4_lt (w : Nat) : ∀ b ∈ toBytes4 w, b < 256 := by
  intro b hb
  simp [toBytes4] at hb
  rcases hb with rfl | rfl | rfl | rfl <;> omega

lemma hashOut_lt (h : Hash8) : ∀ b ∈ hashOut h, b < 256 := by
  intro b hb
  simp only [hashOut, List.mem_append] at hb
  rcases hb with ((((((hb | hb) | hb) | hb) | hb) | hb) | hb) | hb <;> exact toBytes4_lt _ b hb

lemma sha256Bytes_lt (msg : List Nat) : ∀ b ∈ sha256Bytes msg, b < 256 := by
  intro b hb
  simp only [sha256Bytes] at hb
  exact hashOut_lt _ b hb

lemma hashOut_length (h : Hash8) : (hashOut h).length = 32 := by
  simp [hashOut, toBytes4]

lemma sha256Bytes_length (msg : List Nat) : (sha256Bytes msg).length = 32 := by
  simp only [sha256Bytes]
  exact hashOut_length _

lemma bytesToHexStr_length (bs : List Nat) : (bytesToHexStr bs).length = 2 * bs.length := by
  show ((bs.map byteToHex).flatten).length = 2 * bs.length
  induction bs with
  | nil => rfl
  | cons b t ih =>
    simp only [List.map_cons, List.flatten_cons, List.length_append, ih, byteToHex,
      List.length_cons, List.length_nil]
    omega

lemma bytesToHexStr_hex (bs : List Nat) (hbs : ∀ b ∈ bs, b < 256) :
    (bytesToHexStr bs).data.all isLowerHexDigit = true := by
  rw [List.all_eq_true]
  intro c hc
  have hc2 : c ∈ (bs.map byteToHex).flatten := hc
  rcases List.mem_flatten.mp hc2 with ⟨lc, hlc, hcl⟩
  rcases List.mem_map.mp hlc with ⟨b, hb, rfl⟩
  exact byteToHex_lower (hbs b hb) c hcl

/-- C10: getDeviceFingerprint is deterministic: two environments agreeing on
all seven properties yield the same result, and the result is always a
64-character string of lowercase hexadecimal digits. -/
theorem c10_fingerprint_deterministic_hex :
    ∀ e1 e2 : DeviceEnv,
      ((e1.userAgent = e2.userAgent ∧ e1.screenWidth = e2.screenWidth
        ∧ e1.screenHeight = e2.screenHeight ∧ e1.colorDepth = e2.colorDepth
        ∧ e1.timezone = e2.timezone ∧ e1.language = e2.language
        ∧ e1.platform = e2.platform) →
        getDeviceFingerprint e1 = getDeviceFingerprint e2)
      ∧ (getDeviceFingerprint e1).length = 64
      ∧ (getDeviceFingerprint e1).data.all isLowerHexDigit = true := by
  intro e1 e2
  refine ⟨?_, ?_, ?_⟩
  · rintro ⟨h1, h2, h3, h4, h5, h6, h7⟩
    obtain ⟨ua1, sw1, sh1, cd1, tz1, la1, pf1⟩ := e1
    obtain ⟨ua2, sw2, sh2, cd2, tz2, la2, pf2⟩ := e2
    simp only at h1 h2 h3 h4 h5 h6 h7
    subst h1 h2 h3 h4 h5 h6 h7
    rfl
  · show (bytesToHexStr (sha256Bytes (encodeUtf8 (componentsJson e1)))).length = 64
    rw [bytesToHexStr_length, sha256Bytes_length]
  · exact bytesToHexStr_hex _ (sha256Bytes_lt _)

theorem c10_fingerprint_deterministic_hex_witness :
    getDeviceFingerprint sampleDevice = getDeviceFingerprint sampleDevice
    ∧ (getDeviceFingerprint sampleDevice).length = 64
    ∧ (getDeviceFingerprint sampleDevice).data.all isLowerHexDigit = true :=
  ⟨(c10_fingerprint_deterministic_hex sampleDevice sampleDevice).1
      ⟨rfl, rfl, rfl, rfl, rfl, rfl, rfl⟩,
   (c10_fingerprint_deterministic_hex sampleDevice sampleDevice).2.1,
   (c10_fingerprint_deterministic_hex sampleDevice sampleDevice).2.2⟩

end AIH
